import Mathlib

/-!
Shallow embedding of `src/app.py` (automatic-certificate-gen): a Streamlit
certificate portal.  Students log in once with a roll number checked against
an allow-list CSV and a used-list CSV, then receive a PDF built by overlaying
their name onto page 1 of a template PDF; the roll is appended to the
used-list after a successful non-admin render.  Pure logic (admission checks,
handler state transitions, overlay geometry, used-list updates) is embedded
as executable Lean functions; external library effects (CSV read raising,
PDF draw/merge raising, CSV write raising) are modelled as explicit outcome
parameters, mirroring where in the script each exception can arise.
-/

/-- `ADMIN_ROLL = "ADMIN"` (app.py line 14). -/
def ADMIN_ROLL : String := "ADMIN"

/-- Python's `str.strip()`: remove leading and trailing whitespace
(used by app.py lines 95, 98, 137, 161, 182). -/
def pyStrip (s : String) : String :=
  String.mk (((s.data.dropWhile Char.isWhitespace).reverse.dropWhile
    Char.isWhitespace).reverse)

/-- Session state fields initialised in app.py lines 40-49. -/
structure SessionState where
  logged_in : Bool
  user_roll : String
  certificate_generated : Bool
  pdf_data : Option (List Nat)
  student_name : String
deriving DecidableEq, Repr

/-- Outcome of the admission check in the Login button handler
(app.py lines 97-107). -/
inductive AdmitResult
  | EmptyWarning
  | RejectedUnknown
  | RejectedUsed
  | Admitted
deriving DecidableEq, Repr

/-- Admission check of the Login handler (app.py lines 95-104): the input is
stripped (line 95); empty input warns (98-99); a non-admin roll not in the
allow-list is unknown (100-101); a non-admin roll in the used-list is
rejected as used (102-103); otherwise the roll is admitted (104). -/
def admission (rawInput : String) (allowed used : List String) : AdmitResult :=
  let roll := pyStrip rawInput
  if roll = "" then .EmptyWarning
  else if roll ≠ ADMIN_ROLL ∧ roll ∉ allowed then .RejectedUnknown
  else if roll ≠ ADMIN_ROLL ∧ roll ∈ used then .RejectedUsed
  else .Admitted

/-- Full effect of the Login button handler on session state (app.py lines
97-107): only on admission are `logged_in` and `user_roll` set (105-106);
every rejection leaves the session untouched. -/
def loginHandler (s : SessionState) (rawInput : String) (allowed used : List String) :
    SessionState × AdmitResult :=
  match admission rawInput allowed used with
  | .Admitted => ({ s with logged_in := true, user_roll := pyStrip rawInput }, .Admitted)
  | r => (s, r)

/-- Drawing operations on a PDF page.  `baseOp` stands for pre-existing
content of the template page; `centredText` models reportlab's
`drawCentredString(x, y, text)` with the active font and size
(app.py lines 149, 161). -/
inductive DrawOp
  | baseOp (tag : Nat)
  | centredText (font : String) (size : Nat) (x : ℚ) (y : ℚ) (text : String)
deriving DecidableEq, Repr

/-- A PDF page: mediabox width/height plus drawing content. -/
structure Page where
  width : ℚ
  height : ℚ
  ops : List DrawOp
deriving DecidableEq, Repr

/-- A PDF document as a list of pages. -/
structure Pdf where
  pages : List Page
deriving DecidableEq, Repr

/-- PyPDF2's `page.merge_page(overlay)` (app.py line 172): the overlay's
content is drawn on top of (i.e. after) the base page's content. -/
def mergePage (base : Page) (overlayOps : List DrawOp) : Page :=
  { base with ops := base.ops ++ overlayOps }

/-- Certificate rendering pipeline of app.py lines 144-173: read page 1 of
the template (`pages[0]`, raising if the template has no pages — modelled as
`none`), take its mediabox width and height (154-155), place the stripped
name by `drawCentredString` at `x = page_width / 2`, `y = page_height / 2`
(158-161) on an overlay containing only that one string, merge the overlay
onto template page 1 (171-172), and add only that merged page to the output
writer (173). -/
def renderCertificate (template : Pdf) (fontName : String) (fontSize : Nat)
    (name : String) : Option Pdf :=
  match template.pages with
  | [] => none
  | p :: _ =>
      let overlayOps := [DrawOp.centredText fontName fontSize (p.width / 2)
        (p.height / 2) (pyStrip name)]
      some ⟨[mergePage p overlayOps]⟩

/-- Abstract model of the external PdfWriter serialization
(`output.write(output_stream)`, app.py line 177; the PDF library itself is
out of scope per spec section 1): every written PDF file begins with the
`%PDF` header bytes, followed by each page's serialized content. -/
def pdfBytes (p : Pdf) : List Nat :=
  [0x25, 0x50, 0x44, 0x46] ++
    p.pages.flatMap (fun pg => pg.ops.flatMap fun op =>
      match op with
      | .baseOp t => [t]
      | .centredText _ size _ _ text => size :: text.data.map Char.toNat)

/-- Messages the Generate Certificate handler can surface
(app.py lines 138, 140, 191, 194). -/
inductive GenMessage
  | warnEmptyName
  | errTemplateMissing
  | errException
  | successMsg
deriving DecidableEq, Repr

/-- Result of one run of the Generate Certificate handler: the session state
after the run, the persisted used-list after the run, and the message shown. -/
structure GenResult where
  session : SessionState
  usedOut : List String
  message : GenMessage
deriving DecidableEq, Repr

/-- The Generate Certificate button handler (app.py lines 136-194).
`renderOutcome` is the result of the PDF work on lines 145-178 (`none`
models an exception raised anywhere in the draw/merge pipeline, all of which
precedes the session assignments); `writeRaises` models the
`to_csv` call on line 189 raising.  Order mirrors the source: empty stripped
name warns (137-138); a missing template shows an inline error (139-140);
otherwise the overlay/merge runs, then the three session fields are assigned
(181-183), then — for non-admin rolls only — the roll is appended to the
used-list and persisted (186-189); an exception anywhere in the try block is
caught and shown inline (193-194). -/
def generateHandler (s : SessionState) (nameInput : String)
    (templateExists : Bool) (renderOutcome : Option Pdf) (writeRaises : Bool)
    (used : List String) : GenResult :=
  if pyStrip nameInput = "" then ⟨s, used, .warnEmptyName⟩
  else if ¬templateExists then ⟨s, used, .errTemplateMissing⟩
  else
    match renderOutcome with
    | none => ⟨s, used, .errException⟩
    | some pdf =>
        let s1 := { s with pdf_data := some (pdfBytes pdf),
                           student_name := pyStrip nameInput,
                           certificate_generated := true }
        if s.user_roll ≠ ADMIN_ROLL then
          if writeRaises then ⟨s1, used, .errException⟩
          else ⟨s1, used ++ [s.user_roll], .successMsg⟩
        else ⟨s1, used, .successMsg⟩

/-- Outcome of `pd.read_csv` on a list file: either the call raises, or it
yields a table with column names and the values of its `roll` column (empty
when the column is absent). -/
inductive CsvReadOutcome
  | raises
  | table (cols : List String) (rolls : List String)
deriving DecidableEq, Repr

/-- Result of loading the allow-list (app.py lines 54-73). -/
inductive AllowLoadResult
  | stopped
  | loaded (rolls : List String)
deriving DecidableEq, Repr

/-- Allow-list loading (app.py lines 54-73): a missing file hard-stops
(54-56); a read error hard-stops (71-73); a table without a `roll` column
hard-stops (62-66); otherwise the `roll` column is loaded with each entry
stripped (69). -/
def loadAllowedRolls (fileExists : Bool) (o : CsvReadOutcome) : AllowLoadResult :=
  if ¬fileExists then .stopped
  else match o with
    | .raises => .stopped
    | .table cols rolls =>
        if "roll" ∈ cols then .loaded (rolls.map pyStrip) else .stopped

/-- Used-list loading (app.py lines 79-87): a read error falls back to an
empty table without stopping (85-87); a table without a `roll` column is
replaced by an empty one (83-84); otherwise the stripped `roll` column is
used (81-82). -/
def loadUsedRolls (o : CsvReadOutcome) : List String :=
  match o with
  | .raises => []
  | .table cols rolls =>
      if "roll" ∈ cols then rolls.map pyStrip else []

/-- Outcome of one full script run through the login branch: either the
script hard-stopped (`st.stop`), or it rendered a page with the resulting
session, the loaded used-list, and the admission result if the Login button
was handled. -/
inductive LoginOutcome
  | halted
  | page (s : SessionState) (used : List String) (res : Option AdmitResult)
deriving DecidableEq, Repr

/-- One script run in which the user presses Login (app.py lines 54-107):
load the allow-list (possibly hard-stopping), load the used-list (never
stopping), and — when not logged in — run the Login handler. -/
def loginInteraction (s : SessionState) (allowExists : Bool)
    (allowRead usedRead : CsvReadOutcome) (rollInput : String) : LoginOutcome :=
  match loadAllowedRolls allowExists allowRead with
  | .stopped => .halted
  | .loaded allowed =>
      let used := loadUsedRolls usedRead
      if s.logged_in then .page s used none
      else
        let r := loginHandler s rollInput allowed used
        .page r.1 used (some r.2)

/-- Outcome of one full script run through the generate branch: either the
script hard-stopped, or it rendered a page with the resulting session and
used-list, the handler's message, and whether the download section
(app.py line 197) is shown on that page. -/
inductive GenOutcome
  | halted
  | page (s : SessionState) (used : List String) (msg : Option GenMessage)
      (downloadShown : Bool)
deriving DecidableEq, Repr

/-- One script run in which a logged-in user presses Generate Certificate
(app.py lines 54-197): load the allow-list (possibly hard-stopping), load
the used-list, run the generate handler, then show the download section iff
a certificate has been generated and its bytes are present (line 197). -/
def generateInteraction (s : SessionState) (allowExists : Bool)
    (allowRead usedRead : CsvReadOutcome) (nameInput : String)
    (templateExists : Bool) (renderOutcome : Option Pdf)
    (writeRaises : Bool) : GenOutcome :=
  match loadAllowedRolls allowExists allowRead with
  | .stopped => .halted
  | .loaded _ =>
      let used := loadUsedRolls usedRead
      if s.logged_in then
        let r := generateHandler s nameInput templateExists renderOutcome
          writeRaises used
        .page r.session r.usedOut (some r.message)
          (r.session.certificate_generated && r.session.pdf_data.isSome)
      else .page s used none false

/-- C1: for every allowed set and used set, `admission` applied to the admin
identifier `"ADMIN"` yields `Admitted`, regardless of whether the admin
identifier is in the allowed set or the used set. -/
theorem admission_admin_always_admitted (allowed used : List String) :
    admission ADMIN_ROLL allowed used = AdmitResult.Admitted := by
  have h : pyStrip "ADMIN" = "ADMIN" := by decide
  simp [admission, ADMIN_ROLL, h]

/-- C2: a non-admin roll present in the used-list can never again pass the
admission check (never `Admitted`), and when it is moreover non-empty and in
the allowed set, `admission` yields `RejectedUsed`. -/
theorem used_roll_never_readmitted (roll : String) (allowed used : List String)
    (hadmin : pyStrip roll ≠ ADMIN_ROLL) (hused : pyStrip roll ∈ used) :
    admission roll allowed used ≠ AdmitResult.Admitted ∧
      (pyStrip roll ≠ "" → pyStrip roll ∈ allowed →
        admission roll allowed used = AdmitResult.RejectedUsed) := by
  constructor
  · by_cases hr : pyStrip roll = ""
    · simp [admission, hr]
    · by_cases hall : pyStrip roll ∈ allowed
      · simp [admission, hr, hall, hadmin, hused]
      · simp [admission, hr, hall, hadmin]
  · intro hr hall
    simp [admission, hr, hall, hadmin, hused]

/-- Witness for C2 at the concrete input `" S1 "` with allow-list `["S1"]`
and used-list `["S1"]`. -/
theorem used_roll_never_readmitted_witness :
    admission " S1 " ["S1"] ["S1"] = AdmitResult.RejectedUsed :=
  (used_roll_never_readmitted " S1 " ["S1"] ["S1"] (by decide) (by decide)).2
    (by decide) (by decide)

/-- C3: every roll that is non-empty after stripping, differs from the admin
identifier, and is not in the allowed set is rejected as unknown. -/
theorem unknown_roll_rejected (roll : String) (allowed used : List String)
    (hne : pyStrip roll ≠ "") (hadmin : pyStrip roll ≠ ADMIN_ROLL)
    (hall : pyStrip roll ∉ allowed) :
    admission roll allowed used = AdmitResult.RejectedUnknown := by
  simp [admission, hne, hadmin, hall]

/-- Witness for C3 at the concrete input `"S3"` with allow-list
`["S1", "S2"]`. -/
theorem unknown_roll_rejected_witness :
    admission "S3" ["S1", "S2"] ["S1"] = AdmitResult.RejectedUnknown :=
  unknown_roll_rejected "S3" ["S1", "S2"] ["S1"] (by decide) (by decide)
    (by decide)

/-- C8: an input that is empty after stripping changes no state: the Login
handler returns the session unchanged with only a warning, and the Generate
handler returns the session and the persisted used-list unchanged with only
a warning. -/
theorem empty_input_no_state_change (s : SessionState)
    (rawRoll nameInput : String) (allowed used : List String)
    (templateExists : Bool) (renderOutcome : Option Pdf) (writeRaises : Bool)
    (hroll : pyStrip rawRoll = "") (hname : pyStrip nameInput = "") :
    loginHandler s rawRoll allowed used = (s, AdmitResult.EmptyWarning) ∧
      generateHandler s nameInput templateExists renderOutcome writeRaises
        used = ⟨s, used, GenMessage.warnEmptyName⟩ := by
  constructor
  · simp [loginHandler, admission, hroll]
  · simp [generateHandler, hname]

/-- Witness for C8 at concrete whitespace-only inputs. -/
theorem empty_input_no_state_change_witness :
    loginHandler ⟨false, "", false, none, ""⟩ "  " ["S1"] [] =
        (⟨false, "", false, none, ""⟩, AdmitResult.EmptyWarning) ∧
      generateHandler ⟨false, "", false, none, ""⟩ " " true none false [] =
        ⟨⟨false, "", false, none, ""⟩, [], GenMessage.warnEmptyName⟩ :=
  empty_input_no_state_change ⟨false, "", false, none, ""⟩ "  " " " ["S1"] []
    true none false (by decide) (by decide)

/-- C10: when the used-list file read raises or the table lacks a `roll`
column, the script does not stop: it proceeds with an empty used set, and
every allow-listed roll — even one that already received a certificate —
is admitted again. -/
theorem unreadable_used_list_admits_all (s : SessionState)
    (allowRead usedRead : CsvReadOutcome) (rollInput : String)
    (allowed : List String)
    (hlog : s.logged_in = false)
    (hallow : loadAllowedRolls true allowRead = .loaded allowed)
    (hused : usedRead = .raises ∨
      ∃ cols rolls, usedRead = .table cols rolls ∧ "roll" ∉ cols)
    (hne : pyStrip rollInput ≠ "") (hmem : pyStrip rollInput ∈ allowed) :
    loadUsedRolls usedRead = [] ∧
      loginInteraction s true allowRead usedRead rollInput =
        .page ({ s with logged_in := true, user_roll := pyStrip rollInput })
          [] (some AdmitResult.Admitted) := by
  have hempty : loadUsedRolls usedRead = [] := by
    rcases hused with h | ⟨cols, rolls, h, hc⟩
    · simp [h, loadUsedRolls]
    · simp [h, loadUsedRolls, hc]
  refine ⟨hempty, ?_⟩
  simp only [loginInteraction, hallow, hempty, hlog, Bool.false_eq_true,
    if_false, loginHandler]
  simp [admission, hne, hmem]

/-- Witness for C10: the used-list read raises, and a roll already issued a
certificate (hence in the unreadable used-list file) is admitted again. -/
theorem unreadable_used_list_admits_all_witness :
    loadUsedRolls .raises = [] ∧
      loginInteraction ⟨false, "", false, none, ""⟩ true
          (.table ["roll"] ["S1"]) .raises "S1" =
        .page ⟨true, "S1", false, none, ""⟩ [] (some AdmitResult.Admitted) :=
  unreadable_used_list_admits_all ⟨false, "", false, none, ""⟩
    (.table ["roll"] ["S1"]) .raises "S1" ["S1"] rfl (by decide)
    (Or.inl rfl) (by decide) (by decide)

/-- Counterexample for C4 as stated: a logged-in non-admin whose roll is
already in the persisted used-list (reachable by pressing Generate twice in
one session, since the handler re-appends without re-checking) completes a
successful render after which the roll is present twice, not exactly once. -/
theorem used_once_cex :
    (generateHandler ⟨true, "S1", false, none, ""⟩ "Jane Doe" true
        (some ⟨[⟨612, 792, [DrawOp.baseOp 0]⟩]⟩) false ["S1"]).message =
      GenMessage.successMsg ∧
    (generateHandler ⟨true, "S1", false, none, ""⟩ "Jane Doe" true
        (some ⟨[⟨612, 792, [DrawOp.baseOp 0]⟩]⟩) false ["S1"]).usedOut.count
      "S1" = 2 := by
  constructor <;> rfl

/-- C4 (amended): after every successful render, a non-admin roll is
appended to the persisted used-list — its occurrence count grows by exactly
one, so it is present exactly once whenever it was absent beforehand (as on
the first render after admission) — while an admin render leaves the
used-list unchanged. -/
theorem mark_used_appends (s : SessionState) (nameInput : String) (pdf : Pdf)
    (used : List String) (hname : pyStrip nameInput ≠ "") :
    (s.user_roll ≠ ADMIN_ROLL →
      (generateHandler s nameInput true (some pdf) false used).usedOut =
          used ++ [s.user_roll] ∧
        (generateHandler s nameInput true (some pdf) false used).usedOut.count
            s.user_roll = used.count s.user_roll + 1 ∧
        (s.user_roll ∉ used →
          (generateHandler s nameInput true (some pdf) false
            used).usedOut.count s.user_roll = 1)) ∧
    (s.user_roll = ADMIN_ROLL →
      (generateHandler s nameInput true (some pdf) false used).usedOut =
        used) := by
  constructor
  · intro hroll
    refine ⟨by simp [generateHandler, hname, hroll], ?_, ?_⟩
    · simp [generateHandler, hname, hroll, List.count_append]
    · intro habs
      simp [generateHandler, hname, hroll, List.count_append,
        List.count_eq_zero_of_not_mem habs]
  · intro hroll
    simp [generateHandler, hname, hroll]

/-- Witness for C4 (amended) at a fresh non-admin roll `"S2"` absent from
the prior used-list. -/
theorem mark_used_appends_witness :
    (generateHandler ⟨true, "S2", false, none, ""⟩ "Jane Doe" true
        (some ⟨[⟨612, 792, []⟩]⟩) false ["S1"]).usedOut = ["S1", "S2"] ∧
      (generateHandler ⟨true, "S2", false, none, ""⟩ "Jane Doe" true
        (some ⟨[⟨612, 792, []⟩]⟩) false ["S1"]).usedOut.count "S2" = 1 := by
  have h := mark_used_appends ⟨true, "S2", false, none, ""⟩ "Jane Doe"
    ⟨[⟨612, 792, []⟩]⟩ ["S1"] (by decide)
  have h2 := h.1 (by decide)
  exact ⟨h2.1, h2.2.2 (by decide)⟩

/-- Counterexample for C5 as stated: when the used-list write raises, the
inline error is shown but the session is not as it was before the attempt —
`certificate_generated`, `pdf_data` and `student_name` were already
assigned before the write. -/
theorem write_failure_mutates_session_cex :
    (generateHandler ⟨true, "S1", false, none, ""⟩ "Jane" true
        (some ⟨[⟨612, 792, []⟩]⟩) true ["X"]).message =
      GenMessage.errException ∧
    (generateHandler ⟨true, "S1", false, none, ""⟩ "Jane" true
        (some ⟨[⟨612, 792, []⟩]⟩) true ["X"]).session ≠
      ⟨true, "S1", false, none, ""⟩ := by
  constructor
  · rfl
  · decide

/-- C5 (amended): a failure raised in the PDF draw/merge pipeline (which
wholly precedes the session assignments) leaves session state and persisted
used-list exactly as prior to the attempt; a used-list write failure shows
the inline error and leaves the used-list unchanged, but the session keeps
the freshly assigned `pdf_data`, `student_name` and `certificate_generated`;
`logged_in` and `user_roll` are preserved by every run of the handler. -/
theorem generate_failure_session_effects (s : SessionState)
    (nameInput : String) (used : List String) (pdf : Pdf)
    (hname : pyStrip nameInput ≠ "") (hroll : s.user_roll ≠ ADMIN_ROLL) :
    (∀ templateExists writeRaises,
      (generateHandler s nameInput templateExists none writeRaises
          used).session = s ∧
        (generateHandler s nameInput templateExists none writeRaises
          used).usedOut = used) ∧
      generateHandler s nameInput true (some pdf) true used =
        ⟨{ s with pdf_data := some (pdfBytes pdf),
                  student_name := pyStrip nameInput,
                  certificate_generated := true }, used,
          GenMessage.errException⟩ ∧
      (∀ templateExists renderOutcome writeRaises,
        (generateHandler s nameInput templateExists renderOutcome writeRaises
            used).session.logged_in = s.logged_in ∧
          (generateHandler s nameInput templateExists renderOutcome
            writeRaises used).session.user_roll = s.user_roll) := by
  refine ⟨?_, ?_, ?_⟩
  · intro templateExists writeRaises
    cases templateExists <;> simp [generateHandler, hname]
  · simp [generateHandler, hname, hroll]
  · intro templateExists renderOutcome writeRaises
    cases templateExists <;> cases renderOutcome <;> cases writeRaises <;>
      by_cases h : s.user_roll = ADMIN_ROLL <;>
      simp [generateHandler, hname, h]

/-- Witness for C5 (amended) at a concrete session with a draw/merge
failure and a concrete write failure. -/
theorem generate_failure_session_effects_witness :
    (generateHandler ⟨true, "S2", false, none, ""⟩ "Bob" true none false
        ["X"]).session = ⟨true, "S2", false, none, ""⟩ ∧
      generateHandler ⟨true, "S2", false, none, ""⟩ "Bob" true
          (some ⟨[⟨612, 792, []⟩]⟩) true ["X"] =
        ⟨{ logged_in := true, user_roll := "S2",
           certificate_generated := true,
           pdf_data := some (pdfBytes ⟨[⟨612, 792, []⟩]⟩),
           student_name := pyStrip "Bob" }, ["X"],
          GenMessage.errException⟩ := by
  have h := generate_failure_session_effects ⟨true, "S2", false, none, ""⟩
    "Bob" ["X"] ⟨[⟨612, 792, []⟩]⟩ (by decide) (by decide)
  exact ⟨(h.1 true false).1, h.2.1⟩

/-- Counterexample for C6 as stated: two templates of different heights give
the rendered name different vertical positions (396 vs 250), so the vertical
position is computed from the template's geometry (half the page height, app.py
line 159), not a fixed constant independent of it. -/
theorem vertical_position_not_constant_cex :
    renderCertificate ⟨[⟨612, 792, []⟩]⟩ "Helvetica-Bold" 36 "Jane" =
        some ⟨[⟨612, 792,
          [DrawOp.centredText "Helvetica-Bold" 36 306 396 "Jane"]⟩]⟩ ∧
      renderCertificate ⟨[⟨612, 500, []⟩]⟩ "Helvetica-Bold" 36 "Jane" =
        some ⟨[⟨612, 500,
          [DrawOp.centredText "Helvetica-Bold" 36 306 250 "Jane"]⟩]⟩ ∧
      (396 : ℚ) ≠ 250 := by
  have h1 : pyStrip "Jane" = "Jane" := by decide
  refine ⟨?_, ?_, by norm_num⟩ <;>
    · simp only [renderCertificate, mergePage, h1, List.nil_append]
      norm_num

/-- C6 (amended): for every template, the rendered name is horizontally
centered at half the template page width, and its vertical position is
likewise computed from the template's geometry as half the page height —
both coordinates are read off the template's mediabox, none is a fixed
constant. -/
theorem name_position_from_geometry (template : Pdf) (p : Page)
    (rest : List Page) (fontName : String) (fontSize : Nat) (name : String)
    (hp : template.pages = p :: rest) :
    renderCertificate template fontName fontSize name =
      some ⟨[{ p with ops := p.ops ++
        [DrawOp.centredText fontName fontSize (p.width / 2) (p.height / 2)
          (pyStrip name)] }]⟩ := by
  simp only [renderCertificate, hp, mergePage]

/-- Witness for C6 (amended) at a concrete letter-sized template. -/
theorem name_position_from_geometry_witness :
    renderCertificate ⟨[⟨612, 792, [DrawOp.baseOp 3]⟩]⟩ "Lora-Bold" 40
        " Ada " =
      some ⟨[{ width := 612, height := 792,
               ops := [DrawOp.baseOp 3] ++
                 [DrawOp.centredText "Lora-Bold" 40 (612 / 2) (792 / 2)
                   (pyStrip " Ada ")] }]⟩ :=
  name_position_from_geometry ⟨[⟨612, 792, [DrawOp.baseOp 3]⟩]⟩
    ⟨612, 792, [DrawOp.baseOp 3]⟩ [] "Lora-Bold" 40 " Ada " rfl

/-- Counterexample for C7 as stated: with the template file absent, a
logged-in interaction does not hard-stop — it renders a normal page with an
inline error, the session and used-list untouched, and (here) the download
section for a previously generated certificate still shown, so further
actions remain possible. -/
theorem template_missing_no_hard_stop_cex :
    generateInteraction ⟨true, "S1", true, some [1], "Jane"⟩ true
        (.table ["roll"] ["S1"]) (.table ["roll"] []) "Jane" false none
        false =
      .page ⟨true, "S1", true, some [1], "Jane"⟩ []
        (some GenMessage.errTemplateMissing) true ∧
    generateInteraction ⟨true, "S1", true, some [1], "Jane"⟩ true
        (.table ["roll"] ["S1"]) (.table ["roll"] []) "Jane" false none
        false ≠ GenOutcome.halted := by
  constructor
  · rfl
  · decide

/-- C7 (amended): an absent allow-list file hard-stops the script with no
further action possible; an absent template file instead surfaces an inline
error from the Generate handler — the interaction completes normally with
session and used-list unchanged and the rest of the page (e.g. the download
section for an already-generated certificate) still available. -/
theorem missing_file_handling (s : SessionState)
    (allowRead usedRead : CsvReadOutcome) (allowed : List String)
    (nameInput : String) (renderOutcome : Option Pdf) (writeRaises : Bool)
    (hallow : loadAllowedRolls true allowRead = .loaded allowed)
    (hlog : s.logged_in = true) (hname : pyStrip nameInput ≠ "") :
    (∀ ar ur ni te ro wr,
      generateInteraction s false ar ur ni te ro wr = .halted) ∧
      generateInteraction s true allowRead usedRead nameInput false
          renderOutcome writeRaises =
        .page s (loadUsedRolls usedRead)
          (some GenMessage.errTemplateMissing)
          (s.certificate_generated && s.pdf_data.isSome) := by
  constructor
  · intro ar ur ni te ro wr
    simp [generateInteraction, loadAllowedRolls]
  · simp [generateInteraction, hallow, hlog, generateHandler, hname]

/-- Witness for C7 (amended) at concrete inputs: the allow-list missing case
halts, and the template-missing case renders a page with the inline error. -/
theorem missing_file_handling_witness :
    generateInteraction ⟨true, "S2", false, none, ""⟩ false
        (.table ["roll"] ["S2"]) (.table ["roll"] []) "Bob" true none
        false = .halted ∧
      generateInteraction ⟨true, "S2", false, none, ""⟩ true
          (.table ["roll"] ["S2"]) (.table ["roll"] []) "Bob" false none
          false =
        .page ⟨true, "S2", false, none, ""⟩ []
          (some GenMessage.errTemplateMissing) false := by
  have h := missing_file_handling ⟨true, "S2", false, none, ""⟩
    (.table ["roll"] ["S2"]) (.table ["roll"] []) ["S2"] "Bob" none false
    (by decide) rfl (by decide)
  exact ⟨h.1 (.table ["roll"] ["S2"]) (.table ["roll"] []) "Bob" true none
    false, h.2⟩

/-- C9: for every template with at least one page and non-empty stripped
name, rendering yields a PDF with exactly one page — template page 1 with
the single-string overlay merged on top (all other template pages absent) —
whose serialized byte sequence is non-empty. -/
theorem render_single_page (template : Pdf) (p : Page) (rest : List Page)
    (fontName : String) (fontSize : Nat) (name : String)
    (hp : template.pages = p :: rest) (hname : pyStrip name ≠ "") :
    ∃ out : Pdf, renderCertificate template fontName fontSize name =
        some out ∧
      out.pages.length = 1 ∧
      out.pages = [{ p with ops := p.ops ++
        [DrawOp.centredText fontName fontSize (p.width / 2) (p.height / 2)
          (pyStrip name)] }] ∧
      (pdfBytes out).length > 0 := by
  refine ⟨⟨[{ p with ops := p.ops ++
    [DrawOp.centredText fontName fontSize (p.width / 2) (p.height / 2)
      (pyStrip name)] }]⟩, ?_, rfl, rfl, ?_⟩
  · simp only [renderCertificate, hp, mergePage]
  · simp [pdfBytes]

/-- Witness for C9 at a concrete two-page template: only page 1 survives
into the output. -/
theorem render_single_page_witness :
    ∃ out : Pdf, renderCertificate
        ⟨[⟨612, 792, [DrawOp.baseOp 5]⟩, ⟨612, 792, [DrawOp.baseOp 9]⟩]⟩
        "Lora-Bold" 36 " Jane Doe " = some out ∧
      out.pages.length = 1 ∧
      out.pages = [{ width := 612, height := 792,
                     ops := [DrawOp.baseOp 5] ++
                       [DrawOp.centredText "Lora-Bold" 36 (612 / 2) (792 / 2)
                         (pyStrip " Jane Doe ")] }] ∧
      (pdfBytes out).length > 0 :=
  render_single_page
    ⟨[⟨612, 792, [DrawOp.baseOp 5]⟩, ⟨612, 792, [DrawOp.baseOp 9]⟩]⟩
    ⟨612, 792, [DrawOp.baseOp 5]⟩ [⟨612, 792, [DrawOp.baseOp 9]⟩]
    "Lora-Bold" 36 " Jane Doe " rfl (by decide)
